import Mathlib

/-!
Verification development for the ScriptIt notebook server
(Extensions/notebook/notebook_server.py): the kernel session supervisor
(KernelManager), the notebook document engine (cell list mutators and
execution-result application), the run-all orchestrator, and the
save/load persistence boundary.

Python process handles, pipes and exceptions are embedded explicitly:
the outcome of each primitive operation (process spawn + ready handshake,
write/read/decode on the child pipes) is supplied by an environment
record, and a Python exception that escapes a method is a distinguished
constructor of the result type rather than a Lean exception.
-/

/-- Liveness of the field self.process of KernelManager: None, a live
subprocess (poll() is None), or an exited one (poll() is not None). -/
inductive ProcState where
  | noProc : ProcState
  | alive : ProcState
  | dead : ProcState
deriving DecidableEq, Repr

/-- The mutable state of KernelManager: the process handle status and
self.execution_count. -/
structure KMState where
  process : ProcState
  execution_count : Nat
deriving DecidableEq, Repr

/-- A decoded execute reply as consumed by the handlers: the fields read
with result.get. Absent execution_count decodes to none. -/
structure Response where
  cell_id : String
  status : String
  stdout : String
  stderr : String
  result : String
  execution_count : Option Int
deriving DecidableEq, Repr

/-- Environment of one KernelManager.execute call: whether the eager
start() at entry would succeed, the outcome of the write/read/decode
exchange (none means some step raised), whether the start() attempted in
the except handler would succeed, the str(e) detail of the raised
exception, and the handle state a failed start() leaves behind. -/
structure ExecEnv where
  startOk : Bool
  ioReply : Option Response
  restartOk : Bool
  errMsg : String
  failedProcState : ProcState
deriving DecidableEq, Repr

/-- Result of a call that either returns a value or lets a Python
exception propagate to the caller. -/
inductive ExecOutcome where
  | ok : Response → KMState → ExecOutcome
  | raised : String → KMState → ExecOutcome
deriving DecidableEq, Repr

/-- The try block of KernelManager.execute: write the execute record,
read one line, decode it; on any exception set self.process = None, try
start() (swallowing its failure) and return the synthetic error record
with execution_count 0. -/
def KernelManager.executeExchange (env : ExecEnv) (st : KMState)
    (cell_id : String) : ExecOutcome :=
  match env.ioReply with
  | some r => ExecOutcome.ok r st
  | none =>
      let st2 : KMState :=
        if env.restartOk then { st with process := ProcState.alive }
        else { st with process := env.failedProcState }
      ExecOutcome.ok
        { cell_id := cell_id, status := "error", stdout := "",
          stderr := "Kernel error: " ++ env.errMsg, result := "",
          execution_count := some 0 } st2

/-- KernelManager.execute: if self.process is None or has exited, set it
to None and call start() — a failure of that start() propagates; then
run the guarded write/read/decode exchange. -/
def KernelManager.execute (env : ExecEnv) (st : KMState)
    (cell_id _code : String) : ExecOutcome :=
  if st.process = ProcState.alive then
    KernelManager.executeExchange env st cell_id
  else if env.startOk then
    KernelManager.executeExchange env { st with process := ProcState.alive } cell_id
  else
    ExecOutcome.raised env.errMsg { st with process := env.failedProcState }

/-- How KernelManager.restart disposed of the previous process: no
process to tear down, graceful shutdown record plus bounded wait, or a
forced kill after the graceful attempt failed or timed out. -/
inductive TeardownKind where
  | notNeeded : TeardownKind
  | graceful : TeardownKind
  | forcedKill : TeardownKind
deriving DecidableEq, Repr

/-- Environment of one KernelManager.restart call: whether the graceful
shutdown write and bounded wait succeed, whether the fresh spawn plus
kernel_ready handshake succeeds, and the failure detail. -/
structure RestartEnv where
  gracefulOk : Bool
  spawnOk : Bool
  errMsg : String
deriving DecidableEq, Repr

/-- Result of KernelManager.restart: the state left behind, the
re-raised startup failure if the fresh spawn failed, and the teardown
action taken on the previous process. -/
structure RestartResult where
  st : KMState
  raisedMsg : Option String
  teardown : TeardownKind
deriving DecidableEq, Repr

/-- KernelManager.restart: if the old process is alive, attempt the
shutdown record and bounded wait, killing it on failure; then set
self.process = None and self.execution_count = 0; then spawn a fresh
process and require kernel_ready, on failure setting self.process = None
and re-raising. -/
def KernelManager.restart (env : RestartEnv) (st : KMState) : RestartResult :=
  let td : TeardownKind :=
    if st.process = ProcState.alive then
      (if env.gracefulOk then TeardownKind.graceful else TeardownKind.forcedKill)
    else TeardownKind.notNeeded
  if env.spawnOk then
    { st := { process := ProcState.alive, execution_count := 0 },
      raisedMsg := none, teardown := td }
  else
    { st := { process := ProcState.noProc, execution_count := 0 },
      raisedMsg := some env.errMsg, teardown := td }

/-- A decoded reset reply record: its status field, and the message
field of the synthetic error records. -/
structure ResetReply where
  status : String
  message : String
deriving DecidableEq, Repr

/-- Outcome of the reset exchange on a live process: the write or the
readline raised or read an empty line (before the counter is touched),
the line decoded badly (after the counter was zeroed), or a decoded
reply came back. -/
inductive ResetExchange where
  | readFailed : ResetExchange
  | decodeFailed : ResetExchange
  | replied : ResetReply → ResetExchange
deriving DecidableEq, Repr

/-- Environment of one KernelManager.reset call: whether the fresh spawn
in the dead branch succeeds, the outcome of the reset exchange in the
alive branch, and the failure detail. -/
structure ResetEnv where
  spawnOk : Bool
  exchange : ResetExchange
  errMsg : String
deriving DecidableEq, Repr

/-- KernelManager.reset: if the process is None or has exited, zero the
counter and spawn a fresh process (returning reset_ok on success, an
error record on failure) without writing any reset record; if alive,
write the reset record, read and decode one line, zero the counter once
a non-empty line arrives, and return the decoded reply, mapping any
exception to an error record. -/
def KernelManager.reset (env : ResetEnv) (st : KMState) : KMState × ResetReply :=
  if st.process = ProcState.alive then
    match env.exchange with
    | ResetExchange.readFailed =>
        (st, { status := "error", message := env.errMsg })
    | ResetExchange.decodeFailed =>
        ({ st with execution_count := 0 },
         { status := "error", message := env.errMsg })
    | ResetExchange.replied r =>
        ({ st with execution_count := 0 }, r)
  else if env.spawnOk then
    ({ process := ProcState.alive, execution_count := 0 },
     { status := "reset_ok", message := "" })
  else
    ({ process := ProcState.noProc, execution_count := 0 },
     { status := "error", message := env.errMsg })

/-- One entry of a cell outputs list: a type tag (stdout, stderr or
result) and the text. -/
structure Output where
  type : String
  text : String
deriving DecidableEq, Repr

/-- A notebook cell as built and mutated by the server: id, type, source
text, outputs, execution_count (None until written) and the open
metadata map. -/
structure Cell where
  id : String
  type : String
  source : String
  outputs : List Output
  execution_count : Option Int
  metadata : List (String × String)
deriving DecidableEq, Repr

/-- The notebook metadata record written by new_notebook. -/
structure NotebookMetadata where
  title : String
  created : String
  modified : String
  kernel : String
  kernel_version : String
deriving DecidableEq, Repr

/-- The in-memory notebook document: nsit_format, metadata and the
ordered cell list. -/
structure Notebook where
  nsit_format : String
  metadata : NotebookMetadata
  cells : List Cell
deriving DecidableEq, Repr

/-- The empty code cell the server synthesizes (in the delete handler
and in new_notebook): fresh uuid, type code, empty source, no outputs,
execution_count None, empty metadata. -/
def freshCell (freshId : String) : Cell :=
  { id := freshId, type := "code", source := "", outputs := [],
    execution_count := none, metadata := [] }

/-- The delete handler: keep every cell whose id differs from cell_id;
if the list became empty, append one fresh empty code cell; reply with
status deleted. The fresh uuid is passed in explicitly. -/
def deleteCell (freshId : String) (cells : List Cell) (cell_id : String) :
    List Cell × String :=
  let remaining := cells.filter (fun c => c.id != cell_id)
  if remaining.isEmpty then ([freshCell freshId], "deleted")
  else (remaining, "deleted")

/-- Swap the entries of a cell list at two valid positions, as the move
handler does with simultaneous assignment. -/
def swapCells (cells : List Cell) (i j : Nat) : List Cell :=
  match cells.get? i, cells.get? j with
  | some a, some b => (cells.set i b).set j a
  | _, _ => cells

/-- The move handler: find the first cell with the given id; if
direction is up and it is not first, swap it with its predecessor; if
direction is down and it is not last, swap it with its successor;
otherwise leave the list alone; reply with status moved. -/
def moveCell (cells : List Cell) (cell_id direction : String) :
    List Cell × String :=
  match cells.findIdx? (fun c => c.id == cell_id) with
  | none => (cells, "moved")
  | some i =>
      if direction = "up" ∧ 0 < i then
        (swapCells cells i (i - 1), "moved")
      else if direction = "down" ∧ i + 1 < cells.length then
        (swapCells cells i (i + 1), "moved")
      else (cells, "moved")

/-- The loop body of the retype handler: rewrite the first cell with the
given id to the new type, clearing outputs and execution_count, and stop
there. -/
def retypeCells : List Cell → String → String → List Cell
  | [], _, _ => []
  | c :: rest, cell_id, newType =>
      if c.id = cell_id then
        { c with
          type := newType, outputs := [],
          execution_count := none } :: rest
      else c :: retypeCells rest cell_id newType

/-- The retype handler: rewrite the first matching cell and reply with
status updated. -/
def retypeCell (cells : List Cell) (cell_id newType : String) :
    List Cell × String :=
  (retypeCells cells cell_id newType, "updated")

/-- The output-rebuilding steps shared by the execute and run-all
handlers: start from an empty list and append a stdout, stderr and
result entry, each only when the corresponding response field is
non-empty, in that order. -/
def rebuildOutputs (r : Response) : List Output :=
  let outs : List Output := []
  let outs := if r.stdout ≠ "" then outs ++ [{ type := "stdout", text := r.stdout }] else outs
  let outs := if r.stderr ≠ "" then outs ++ [{ type := "stderr", text := r.stderr }] else outs
  let outs := if r.result ≠ "" then outs ++ [{ type := "result", text := r.result }] else outs
  outs

/-- The execute handler body for the matched cell: overwrite source with
the submitted code, overwrite execution_count with the response field,
and rebuild outputs. -/
def applyExecutionResult (code : String) (r : Response) (c : Cell) : Cell :=
  { c with
    source := code, execution_count := r.execution_count,
    outputs := rebuildOutputs r }

/-- The run-all handler body for an executed cell: overwrite
execution_count with the response field and rebuild outputs; source is
left as it was. -/
def applyRunAllResult (r : Response) (c : Cell) : Cell :=
  { c with
    execution_count := r.execution_count,
    outputs := rebuildOutputs r }

/-- The run-all eligibility test: type is code and the source is
non-empty after stripping whitespace. -/
def eligibleCell (c : Cell) : Bool :=
  c.type == "code" && c.source.trim != ""

/-- The run-all handler: walk the cells in document order; for each
eligible cell call kernel.execute with its id and source, write the
result back into the cell, and collect the response; skip every other
cell. The kernel is an arbitrary state-threaded step function, executed
strictly sequentially. Returns the updated cells, the collected
responses in order, and the final kernel state. -/
def runAll {K : Type} (step : K → String → String → Response × K) :
    K → List Cell → List Cell × List Response × K
  | k, [] => ([], [], k)
  | k, c :: rest =>
      if eligibleCell c then
        let r := (step k c.id c.source).1
        let k1 := (step k c.id c.source).2
        let t := runAll step k1 rest
        (applyRunAllResult r c :: t.1, r :: t.2.1, t.2.2)
      else
        let t := runAll step k rest
        (c :: t.1, t.2.1, t.2.2)

/-- Sequential state-threaded execution of a list of cells, one call per
cell in order, collecting every response. Stated from the run-all
wording of the spec, for comparison with runAll. -/
def mapThread {K : Type} (step : K → String → String → Response × K) :
    K → List Cell → List Response × K
  | k, [] => ([], k)
  | k, c :: rest =>
      let r := (step k c.id c.source).1
      let k1 := (step k c.id c.source).2
      let t := mapThread step k1 rest
      (r :: t.1, t.2)

/-- The outputs list the spec describes: stdout, stderr and result
entries concatenated in that fixed order, each present only when
non-empty. Stated from the spec wording, for comparison with
rebuildOutputs. -/
def specOutputs (r : Response) : List Output :=
  (if r.stdout ≠ "" then [{ type := "stdout", text := r.stdout }] else []) ++
  (if r.stderr ≠ "" then [{ type := "stderr", text := r.stderr }] else []) ++
  (if r.result ≠ "" then [{ type := "result", text := r.result }] else [])

/-- JSON values, the currency of the persisted .nsit format and of
json.load. -/
inductive Json where
  | null : Json
  | bool : Bool → Json
  | num : Int → Json
  | str : String → Json
  | arr : List Json → Json
  | obj : List (String × Json) → Json

/-- JSON encoding of an output entry. -/
def Output.toJson (o : Output) : Json :=
  Json.obj [("type", Json.str o.type), ("text", Json.str o.text)]

/-- JSON encoding of an optional execution count: None encodes to null. -/
def countToJson : Option Int → Json
  | none => Json.null
  | some n => Json.num n

/-- JSON encoding of a cell, with the keys the server writes. -/
def Cell.toJson (c : Cell) : Json :=
  Json.obj
    [("id", Json.str c.id), ("type", Json.str c.type),
     ("source", Json.str c.source),
     ("outputs", Json.arr (c.outputs.map Output.toJson)),
     ("execution_count", countToJson c.execution_count),
     ("metadata", Json.obj (c.metadata.map (fun p => (p.1, Json.str p.2))))]

/-- JSON encoding of the notebook metadata record. -/
def NotebookMetadata.toJson (m : NotebookMetadata) : Json :=
  Json.obj
    [("title", Json.str m.title), ("created", Json.str m.created),
     ("modified", Json.str m.modified), ("kernel", Json.str m.kernel),
     ("kernel_version", Json.str m.kernel_version)]

/-- JSON encoding of a notebook document. -/
def Notebook.toJson (nb : Notebook) : Json :=
  Json.obj
    [("nsit_format", Json.str nb.nsit_format),
     ("metadata", nb.metadata.toJson),
     ("cells", Json.arr (nb.cells.map Cell.toJson))]

/-- The exception json.load raises on input that is not well-formed
JSON. -/
inductive PyErr where
  | jsonDecodeErr : String → PyErr
deriving DecidableEq, Repr

/-- load_notebook: open the file and return json.load of its contents.
The file contents are modeled as the JSON value they parse to, or none
when they are not well-formed JSON; json.load raises on the latter and
performs no further checks. -/
def load_notebook : Option Json → Except PyErr Json
  | none => Except.error (PyErr.jsonDecodeErr "Expecting value")
  | some j => Except.ok j

/-- The modified stamp written by save_notebook before serializing. -/
def stampModified (now : String) (nb : Notebook) : Notebook :=
  { nb with metadata := { nb.metadata with modified := now } }

/-- save_notebook: stamp metadata.modified with the current time and
write the JSON serialization of the document; the json module encodes a
dict of strings, lists, null and numbers faithfully, so the persisted
file contents are modeled as the JSON value of the stamped notebook. -/
def save_notebook (now : String) (nb : Notebook) : Json :=
  Notebook.toJson (stampModified now nb)

/-- Helper: the response/final-state pair of runAll equals sequential
threaded execution of exactly the eligible cells, in order. -/
theorem runAll_pair_eq (K : Type) (step : K → String → String → Response × K)
    (cells : List Cell) :
    ∀ k : K, (runAll step k cells).2 = mapThread step k (cells.filter eligibleCell) := by
  induction cells with
  | nil => intro k; rfl
  | cons c rest ih =>
      intro k
      by_cases h : eligibleCell c = true
      · simp [runAll, mapThread, List.filter_cons, h, ih]
      · simp [runAll, List.filter_cons, h, ih]

/-- Helper: mapThread produces one response per cell. -/
theorem mapThread_length (K : Type) (step : K → String → String → Response × K)
    (cells : List Cell) :
    ∀ k : K, (mapThread step k cells).1.length = cells.length := by
  induction cells with
  | nil => intro k; rfl
  | cons c rest ih => intro k; simp [mapThread, ih]

/-- C4: runAll walks the cells in document order, executes exactly the
cells whose type is code and whose source is non-empty after stripping
whitespace, sequentially threading the kernel state through them, never
aborts on an error status (the step function is arbitrary, in particular
one that answers with error responses), and returns one response per
eligible cell, in order. -/
theorem runAll_executes_eligible_in_order (K : Type)
    (step : K → String → String → Response × K) (k : K) (cells : List Cell) :
    (runAll step k cells).2.1 = (mapThread step k (cells.filter eligibleCell)).1 ∧
    (runAll step k cells).2.2 = (mapThread step k (cells.filter eligibleCell)).2 ∧
    (runAll step k cells).2.1.length = (cells.filter eligibleCell).length := by
  have h := runAll_pair_eq K step cells k
  refine ⟨?_, ?_, ?_⟩
  · rw [h]
  · rw [h]
  · rw [h, mapThread_length]

/-- C5: applying an execution response to a cell replaces the outputs
wholesale — the result is independent of the previous outputs — with
stdout, stderr and result entries in that fixed order, each present
exactly when non-empty; this holds for the execute handler and the
run-all handler alike. -/
theorem apply_result_rebuilds_outputs (code : String) (r : Response) (c : Cell) :
    (applyExecutionResult code r c).outputs = specOutputs r ∧
    (applyRunAllResult r c).outputs = specOutputs r := by
  constructor <;>
    · simp only [applyExecutionResult, applyRunAllResult, rebuildOutputs, specOutputs]
      split <;> split <;> split <;> simp

/-- C2 counterexample: a response with status error does overwrite the
execution_count of the target cell — here a cell with execution_count 5
receives the synthetic kernel-error response and ends with
execution_count 0. -/
theorem error_response_overwrites_execution_count :
    (applyExecutionResult "var x = 1."
      { cell_id := "c1", status := "error", stdout := "",
        stderr := "Kernel error: boom", result := "",
        execution_count := some 0 }
      { id := "c1", type := "code", source := "var x = 1.", outputs := [],
        execution_count := some 5, metadata := [] }).execution_count = some 0 := by
  rfl

/-- C2 amended: applying any execution response — success or error —
overwrites the execution_count of the cell with the execution_count
field of the response, in the execute handler and in the run-all
handler. -/
theorem execution_count_always_overwritten (code : String) (r : Response) (c : Cell) :
    (applyExecutionResult code r c).execution_count = r.execution_count ∧
    (applyRunAllResult r c).execution_count = r.execution_count :=
  ⟨rfl, rfl⟩

/-- C8: save followed by load returns the saved document: the stamped
notebook, whose cell ids, cell sources and metadata fields other than
modified are identical to the originals, and whose modified field holds
the save-time stamp. -/
theorem save_load_roundtrip (nb : Notebook) (now : String) :
    load_notebook (some (save_notebook now nb)) =
      Except.ok (Notebook.toJson (stampModified now nb)) ∧
    (stampModified now nb).cells.map Cell.id = nb.cells.map Cell.id ∧
    (stampModified now nb).cells.map Cell.source = nb.cells.map Cell.source ∧
    (stampModified now nb).metadata.title = nb.metadata.title ∧
    (stampModified now nb).metadata.created = nb.metadata.created ∧
    (stampModified now nb).metadata.kernel = nb.metadata.kernel ∧
    (stampModified now nb).metadata.kernel_version = nb.metadata.kernel_version ∧
    (stampModified now nb).metadata.modified = now ∧
    (stampModified now nb).nsit_format = nb.nsit_format :=
  ⟨rfl, rfl, rfl, rfl, rfl, rfl, rfl, rfl, rfl⟩

/-- C9 counterexample: a well-formed JSON document whose nsit_format is
2.0 and which lacks metadata and cells entirely is returned by
load_notebook as a success, not rejected with a format error. -/
theorem load_accepts_unknown_version :
    load_notebook (some (Json.obj [("nsit_format", Json.str "2.0")])) =
      Except.ok (Json.obj [("nsit_format", Json.str "2.0")]) :=
  rfl

/-- C9 amended: load_notebook validates nothing beyond JSON
well-formedness — every well-formed JSON document is returned unchanged,
whatever its fields or format version, and only input that is not
well-formed JSON raises the json decode error. -/
theorem load_no_validation :
    (∀ j : Json, load_notebook (some j) = Except.ok j) ∧
    load_notebook none = Except.error (PyErr.jsonDecodeErr "Expecting value") :=
  ⟨fun _ => rfl, rfl⟩

/-- C1 counterexample: with the kernel dead beforehand (no process) and
the eager respawn failing, execute propagates the startup exception
instead of returning an error response. -/
theorem execute_raises_on_dead_respawn_failure :
    KernelManager.execute
      { startOk := false, ioReply := none, restartOk := false,
        errMsg := "No such file or directory", failedProcState := ProcState.noProc }
      { process := ProcState.noProc, execution_count := 0 } "c1" "print(1)." =
      ExecOutcome.raised "No such file or directory"
        { process := ProcState.noProc, execution_count := 0 } := by
  rfl

/-- C1 amended: execute never raises provided the process is alive
beforehand or the eager respawn at entry succeeds; under that condition
it always returns a response, echoing the decoded kernel reply when the
exchange succeeds, and otherwise — on any pipe failure or protocol
violation — returning, after the one transparent restart attempt, the
synthetic error response that carries the failure detail. -/
theorem execute_total_unless_respawn_fails (env : ExecEnv) (st : KMState)
    (cell_id code : String)
    (h : st.process = ProcState.alive ∨ env.startOk = true) :
    ∃ r st2, KernelManager.execute env st cell_id code = ExecOutcome.ok r st2 ∧
      (∀ q, env.ioReply = some q → r = q) ∧
      (env.ioReply = none →
        r = { cell_id := cell_id, status := "error", stdout := "",
              stderr := "Kernel error: " ++ env.errMsg, result := "",
              execution_count := some 0 }) := by
  have hstep : ∃ st1, KernelManager.execute env st cell_id code =
      KernelManager.executeExchange env st1 cell_id := by
    by_cases hp : st.process = ProcState.alive
    · exact ⟨st, by simp [KernelManager.execute, hp]⟩
    · rcases h with h | h
      · exact absurd h hp
      · exact ⟨{ st with process := ProcState.alive },
          by simp [KernelManager.execute, hp, h]⟩
  obtain ⟨st1, hq⟩ := hstep
  rw [hq]
  cases hio : env.ioReply with
  | some q =>
      refine ⟨q, st1, by simp [KernelManager.executeExchange, hio], ?_, ?_⟩
      · intro q2 hq2
        exact Option.some.inj hq2
      · intro hc
        cases hc
  | none =>
      refine ⟨_,
        if env.restartOk then { st1 with process := ProcState.alive }
        else { st1 with process := env.failedProcState },
        ?_, ?_, fun _ => rfl⟩
      · simp [KernelManager.executeExchange, hio]
      · intro q2 hq2
        cases hq2

/-- C1 witness: a live process whose exchange fails mid-call still gets
an ok outcome from execute. -/
theorem execute_total_unless_respawn_fails_wit :
    ∃ r st2, KernelManager.execute
      { startOk := true, ioReply := none, restartOk := true,
        errMsg := "broken pipe", failedProcState := ProcState.noProc }
      { process := ProcState.alive, execution_count := 2 } "c9" "print(x)." =
      ExecOutcome.ok r st2 ∧
      (∀ q, (none : Option Response) = some q → r = q) ∧
      ((none : Option Response) = none →
        r = { cell_id := "c9", status := "error", stdout := "",
              stderr := "Kernel error: " ++ "broken pipe", result := "",
              execution_count := some 0 }) :=
  execute_total_unless_respawn_fails
    { startOk := true, ioReply := none, restartOk := true,
      errMsg := "broken pipe", failedProcState := ProcState.noProc }
    { process := ProcState.alive, execution_count := 2 } "c9" "print(x)."
    (Or.inl rfl)

/-- C3: deleting a cell never leaves the notebook empty; the synthesized
replacement is a code cell with empty source, no outputs and unset
execution_count; and deleting the last remaining cell leaves exactly the
one fresh cell. -/
theorem deleteCell_preserves_nonempty (freshId cell_id : String) (cells : List Cell) :
    (deleteCell freshId cells cell_id).1 ≠ [] ∧
    (freshCell freshId).type = "code" ∧
    (freshCell freshId).source = "" ∧
    (freshCell freshId).outputs = [] ∧
    (freshCell freshId).execution_count = none ∧
    (∀ c : Cell, c.id = cell_id →
      deleteCell freshId [c] cell_id = ([freshCell freshId], "deleted")) := by
  refine ⟨?_, rfl, rfl, rfl, rfl, ?_⟩
  · cases hf : cells.filter (fun c => c.id != cell_id) with
    | nil => simp [deleteCell, hf]
    | cons a l => simp [deleteCell, hf]
  · intro c h
    simp [deleteCell, h]

/-- C3 witness: deleting the sole cell of a one-cell notebook leaves
one fresh cell, never zero. -/
theorem deleteCell_preserves_nonempty_wit :
    (deleteCell "f1" [freshCell "a"] "a").1 ≠ [] ∧
    deleteCell "f1" [freshCell "a"] "a" = ([freshCell "f1"], "deleted") :=
  ⟨(deleteCell_preserves_nonempty "f1" "a" [freshCell "a"]).1,
   (deleteCell_preserves_nonempty "f1" "a" [freshCell "a"]).2.2.2.2.2
     (freshCell "a") rfl⟩

/-- C6: restart always zeroes the execution counter (whatever the prior
process state), tears a live prior process down gracefully or by forced
kill when the graceful attempt fails, needs no teardown otherwise, and
when the fresh spawn succeeds leaves a live process and raises
nothing. -/
theorem restart_teardown_respawn_resets (env : RestartEnv) (st : KMState) :
    (KernelManager.restart env st).st.execution_count = 0 ∧
    (st.process = ProcState.alive ∧ env.gracefulOk = true →
      (KernelManager.restart env st).teardown = TeardownKind.graceful) ∧
    (st.process = ProcState.alive ∧ env.gracefulOk = false →
      (KernelManager.restart env st).teardown = TeardownKind.forcedKill) ∧
    (st.process ≠ ProcState.alive →
      (KernelManager.restart env st).teardown = TeardownKind.notNeeded) ∧
    (env.spawnOk = true →
      (KernelManager.restart env st).st.process = ProcState.alive ∧
      (KernelManager.restart env st).raisedMsg = none) := by
  rcases env with ⟨g, s, m⟩
  by_cases hp : st.process = ProcState.alive <;>
    cases g <;> cases s <;>
    simp [KernelManager.restart, hp]

/-- C6 witness: restarting over a live process with a working toolchain
zeroes the counter, tears down gracefully and leaves a live process. -/
theorem restart_teardown_respawn_resets_wit :
    (KernelManager.restart ⟨true, true, "e"⟩ ⟨ProcState.alive, 7⟩).st.execution_count = 0 ∧
    (KernelManager.restart ⟨true, true, "e"⟩ ⟨ProcState.alive, 7⟩).teardown = TeardownKind.graceful ∧
    (KernelManager.restart ⟨true, true, "e"⟩ ⟨ProcState.alive, 7⟩).st.process = ProcState.alive ∧
    (KernelManager.restart ⟨true, true, "e"⟩ ⟨ProcState.alive, 7⟩).raisedMsg = none :=
  ⟨(restart_teardown_respawn_resets ⟨true, true, "e"⟩ ⟨ProcState.alive, 7⟩).1,
   (restart_teardown_respawn_resets ⟨true, true, "e"⟩ ⟨ProcState.alive, 7⟩).2.1 ⟨rfl, rfl⟩,
   ((restart_teardown_respawn_resets ⟨true, true, "e"⟩ ⟨ProcState.alive, 7⟩).2.2.2.2 rfl).1,
   ((restart_teardown_respawn_resets ⟨true, true, "e"⟩ ⟨ProcState.alive, 7⟩).2.2.2.2 rfl).2⟩

/-- C7: on a dead or absent process, reset is a full restart — the
counter is zeroed, the kernel exchange outcome is never consulted (no
reset record reaches a kernel), and a successful spawn leaves a live
process and the reset_ok reply; on a live process whose exchange decodes
to a reply, reset returns that reply, zeroes the counter and spawns
nothing new. -/
theorem reset_dead_restarts_alive_resets (env : ResetEnv) (st : KMState) :
    (st.process ≠ ProcState.alive →
      (KernelManager.reset env st).1.execution_count = 0 ∧
      (∀ ex : ResetExchange,
        KernelManager.reset { env with exchange := ex } st = KernelManager.reset env st) ∧
      (env.spawnOk = true →
        (KernelManager.reset env st).1.process = ProcState.alive ∧
        (KernelManager.reset env st).2.status = "reset_ok")) ∧
    (st.process = ProcState.alive →
      ∀ r : ResetReply, env.exchange = ResetExchange.replied r →
        (KernelManager.reset env st).2 = r ∧
        (KernelManager.reset env st).1.execution_count = 0 ∧
        (KernelManager.reset env st).1.process = st.process) := by
  constructor
  · intro hp
    rcases env with ⟨s, ex, m⟩
    cases s <;> simp [KernelManager.reset, hp]
  · intro hp r hr
    simp [KernelManager.reset, hp, hr]

/-- C7 witness: a dead process with a working spawn comes back alive
with counter 0 and reply reset_ok; a live process answering reset_ok
gets its counter zeroed and the reply through. -/
theorem reset_dead_restarts_alive_resets_wit :
    (KernelManager.reset ⟨true, ResetExchange.readFailed, "e"⟩ ⟨ProcState.dead, 4⟩).1.execution_count = 0 ∧
    (KernelManager.reset ⟨true, ResetExchange.readFailed, "e"⟩ ⟨ProcState.dead, 4⟩).1.process = ProcState.alive ∧
    (KernelManager.reset ⟨true, ResetExchange.readFailed, "e"⟩ ⟨ProcState.dead, 4⟩).2.status = "reset_ok" ∧
    (KernelManager.reset ⟨false, ResetExchange.replied ⟨"reset_ok", ""⟩, "e"⟩ ⟨ProcState.alive, 4⟩).2 = ⟨"reset_ok", ""⟩ ∧
    (KernelManager.reset ⟨false, ResetExchange.replied ⟨"reset_ok", ""⟩, "e"⟩ ⟨ProcState.alive, 4⟩).1.execution_count = 0 :=
  ⟨((reset_dead_restarts_alive_resets ⟨true, ResetExchange.readFailed, "e"⟩ ⟨ProcState.dead, 4⟩).1
      (by simp)).1,
   (((reset_dead_restarts_alive_resets ⟨true, ResetExchange.readFailed, "e"⟩ ⟨ProcState.dead, 4⟩).1
      (by simp)).2.2 rfl).1,
   (((reset_dead_restarts_alive_resets ⟨true, ResetExchange.readFailed, "e"⟩ ⟨ProcState.dead, 4⟩).1
      (by simp)).2.2 rfl).2,
   ((reset_dead_restarts_alive_resets ⟨false, ResetExchange.replied ⟨"reset_ok", ""⟩, "e"⟩ ⟨ProcState.alive, 4⟩).2
      rfl ⟨"reset_ok", ""⟩ rfl).1,
   ((reset_dead_restarts_alive_resets ⟨false, ResetExchange.replied ⟨"reset_ok", ""⟩, "e"⟩ ⟨ProcState.alive, 4⟩).2
      rfl ⟨"reset_ok", ""⟩ rfl).2.1⟩

/-- Helper: a filter that tests against an id occurring nowhere in the
list keeps the list intact. -/
theorem filter_id_ne_of_missing (cells : List Cell) (cell_id : String)
    (h : ∀ c ∈ cells, c.id ≠ cell_id) :
    cells.filter (fun c => c.id != cell_id) = cells := by
  induction cells with
  | nil => rfl
  | cons c rest ih =>
      have hc : c.id ≠ cell_id := h c (List.mem_cons_self c rest)
      have hr : ∀ x ∈ rest, x.id ≠ cell_id :=
        fun x hx => h x (List.mem_cons_of_mem c hx)
      simp [List.filter_cons, hc, ih hr]

/-- Helper: searching for an id occurring nowhere in the list finds no
index. -/
theorem findIdx_none_of_missing (cells : List Cell) (cell_id : String)
    (h : ∀ c ∈ cells, c.id ≠ cell_id) :
    cells.findIdx? (fun c => c.id == cell_id) = none := by
  induction cells with
  | nil => rfl
  | cons c rest ih =>
      have hc : c.id ≠ cell_id := h c (List.mem_cons_self c rest)
      have hr : ∀ x ∈ rest, x.id ≠ cell_id :=
        fun x hx => h x (List.mem_cons_of_mem c hx)
      simp [List.findIdx?_cons, hc, ih hr]

/-- Helper: retyping an id occurring nowhere in the list rewrites
nothing. -/
theorem retypeCells_missing (cells : List Cell) (cell_id newType : String)
    (h : ∀ c ∈ cells, c.id ≠ cell_id) :
    retypeCells cells cell_id newType = cells := by
  induction cells with
  | nil => rfl
  | cons c rest ih =>
      have hc : c.id ≠ cell_id := h c (List.mem_cons_self c rest)
      have hr : ∀ x ∈ rest, x.id ≠ cell_id :=
        fun x hx => h x (List.mem_cons_of_mem c hx)
      simp [retypeCells, hc, ih hr]

/-- C10: on a non-empty notebook, delete, move and retype with a cell id
that occurs nowhere leave the cell list unchanged and still report their
normal success statuses deleted, moved and updated. -/
theorem mutators_noop_on_missing_id (cells : List Cell)
    (cell_id freshId direction newType : String)
    (hne : cells ≠ []) (hmiss : ∀ c ∈ cells, c.id ≠ cell_id) :
    deleteCell freshId cells cell_id = (cells, "deleted") ∧
    moveCell cells cell_id direction = (cells, "moved") ∧
    retypeCell cells cell_id newType = (cells, "updated") := by
  refine ⟨?_, ?_, ?_⟩
  · cases cells with
    | nil => exact absurd rfl hne
    | cons a l =>
        simp [deleteCell, filter_id_ne_of_missing (a :: l) cell_id hmiss]
  · simp [moveCell, findIdx_none_of_missing cells cell_id hmiss]
  · simp [retypeCell, retypeCells_missing cells cell_id newType hmiss]

/-- C10 witness: the three mutators on a one-cell notebook with an
unknown id hand back the same list and their success statuses. -/
theorem mutators_noop_on_missing_id_wit :
    deleteCell "f1" [freshCell "a"] "zzz" = ([freshCell "a"], "deleted") ∧
    moveCell [freshCell "a"] "zzz" "up" = ([freshCell "a"], "moved") ∧
    retypeCell [freshCell "a"] "zzz" "markdown" = ([freshCell "a"], "updated") :=
  mutators_noop_on_missing_id [freshCell "a"] "zzz" "f1" "up" "markdown"
    (by decide) (by decide)
